import Mathlib

/-!
Verification of the loyalty-rewards engine in `src/src/app.ts`.

Shallow embedding conventions:
* JavaScript numbers that the program actually manipulates (purchase amounts,
  multipliers) are embedded as exact rationals `ℚ`; `Math.floor` is `Int.floor`.
* The customer record is the `Customer` interface, with TypeScript optional
  fields (`email?`, `preferredStore?`, `lastStatusChange?`) as `Option String`.
* The in-place mutation performed by `applyStatusUpgrade` and the purchase
  route becomes explicit state passing: each such function takes the old
  record (or store) and returns the new one.
* The wall clock (`new Date().toISOString()`) becomes an explicit `now`
  argument threaded to every function whose body reads the clock.
* A runtime tier value that may lie outside the `Customer["status"]` union
  (possible in JS despite the TypeScript annotation) is an `Option Tier`:
  `none` is an unrecognized value, for which the record lookup
  `STATUS_MULTIPLIER[status]` yields `undefined`.
-/

/-- The `Customer["status"]` union type: `"PLATINUM" | "GOLD" | "SILVER" | "BRONZE"`. -/
inductive Tier where
  | BRONZE
  | SILVER
  | GOLD
  | PLATINUM
  deriving DecidableEq, Repr

/-- Privilege order on tiers: BRONZE < SILVER < GOLD < PLATINUM. -/
def Tier.rank : Tier → ℕ
  | .BRONZE => 0
  | .SILVER => 1
  | .GOLD => 2
  | .PLATINUM => 3

/-- The `Customer` interface of `src/src/app.ts`. -/
structure Customer where
  id : ℤ
  name : String
  status : Tier
  points : ℤ
  lastPurchaseDate : String
  email : Option String
  preferredStore : Option String
  joinDate : String
  notifications : Bool
  lastStatusChange : Option String
  deriving DecidableEq, Repr

/-- `const BASE_POINT_DIVISOR = 10` — base rule: 1 point per 10 dollars. -/
def BASE_POINT_DIVISOR : ℚ := 10

/-- `STATUS_MULTIPLIER`: BRONZE 1.0, SILVER 1.0, GOLD 1.2, PLATINUM 2.0
(the decimal literal 1.2 is the rational 6/5). -/
def STATUS_MULTIPLIER : Tier → ℚ
  | .BRONZE => 1
  | .SILVER => 1
  | .GOLD => 6 / 5
  | .PLATINUM => 2

/-- `calcPointsWithStatus` on a status known to be in the union type:
`Math.floor(amount / BASE_POINT_DIVISOR)`, multiplied by the status
multiplier, floored again. -/
def calcPointsWithStatus (status : Tier) (amount : ℚ) : ℤ :=
  let base : ℤ := ⌊amount / BASE_POINT_DIVISOR⌋
  let mult : ℚ := STATUS_MULTIPLIER status
  ⌊(base : ℚ) * mult⌋

/-- `calcPointsWithStatus` on an arbitrary runtime status value: an
unrecognized tier (`none`) makes `STATUS_MULTIPLIER[status]` come out
`undefined`, and the `?? 1.0` fallback supplies the multiplier 1.0. -/
def calcPointsWithStatusRuntime (status : Option Tier) (amount : ℚ) : ℤ :=
  let base : ℤ := ⌊amount / BASE_POINT_DIVISOR⌋
  let mult : ℚ := (Option.map STATUS_MULTIPLIER status).getD 1
  ⌊(base : ℚ) * mult⌋

/-- `applyStatusUpgrade`, with the two in-place field writes of each branch
made explicit and the clock read (`new Date().toISOString()`) passed in as
`now`.  The ordered first-match rules of the source:
PLATINUM at ≥ 1000 unless already PLATINUM, GOLD at ≥ 750 from
SILVER/BRONZE, SILVER at ≥ 500 from BRONZE, otherwise no change. -/
def applyStatusUpgrade (now : String) (c : Customer) : Customer :=
  if c.points ≥ 1000 ∧ c.status ≠ Tier.PLATINUM then
    { c with status := Tier.PLATINUM, lastStatusChange := some now }
  else if c.points ≥ 750 ∧ (c.status = Tier.SILVER ∨ c.status = Tier.BRONZE) then
    { c with status := Tier.GOLD, lastStatusChange := some now }
  else if c.points ≥ 500 ∧ c.status = Tier.BRONZE then
    { c with status := Tier.SILVER, lastStatusChange := some now }
  else c

/-- A customer record holding only the loyalty-relevant fields, used to
evaluate the promotion rules at concrete (tier, points) pairs. -/
def mkLoyalty (t : Tier) (p : ℤ) : Customer :=
  { id := 0, name := "", status := t, points := p, lastPurchaseDate := "",
    email := none, preferredStore := none, joinDate := "",
    notifications := false, lastStatusChange := none }

/-- Spec-side points formula (for the refinement check of the Points
Calculator): floor the base points `⌊A / 10⌋` first, multiply by the tier
multiplier of the spec's Multiplier Table, floor again. -/
def calculatePoints_spec (t : Tier) (amount : ℚ) : ℤ :=
  ⌊(⌊amount / 10⌋ : ℚ) * STATUS_MULTIPLIER t⌋

/-- Spec-side promotion rules (for the refinement check of the Tier
Promotion Evaluator): ordered first-match rules returning the new tier and
the promoted flag, exactly as §4.2 writes them. -/
def evaluatePromotion_spec (t : Tier) (p : ℤ) : Tier × Bool :=
  if p ≥ 1000 ∧ t ≠ Tier.PLATINUM then (Tier.PLATINUM, true)
  else if p ≥ 750 ∧ (t = Tier.SILVER ∨ t = Tier.BRONZE) then (Tier.GOLD, true)
  else if p ≥ 500 ∧ t = Tier.BRONZE then (Tier.SILVER, true)
  else (t, false)

/-- The parsed value of `Number(req.body?.amount)`: `NaN` (a missing or
non-numeric body field), an infinity, or a finite value. -/
inductive JSNum where
  | nan
  | posInf
  | negInf
  | finite (q : ℚ)
  deriving DecidableEq, Repr

/-- `Number.isFinite`. -/
def JSNum.isFinite : JSNum → Bool
  | .finite _ => true
  | _ => false

/-- The amount check of the purchase route, `!Number.isFinite(amount) ||
amount <= 0` negated: the amount passes iff it is finite and positive
(`NaN <= 0` is false in JS, but `isFinite` already rejects `NaN`). -/
def JSNum.isValidAmount : JSNum → Bool
  | .finite q => decide (0 < q)
  | _ => false

/-- `customers.find((c) => c.id === customerId)`. -/
def findCustomer (store : List Customer) (customerId : ℤ) : Option Customer :=
  store.find? (fun c => decide (c.id = customerId))

/-- In-place mutation of the record object returned by `find`: the first
list element with the given id is replaced by `f` applied to it, every
other element is untouched. -/
def updateFirst (store : List Customer) (customerId : ℤ) (f : Customer → Customer) :
    List Customer :=
  match store with
  | [] => []
  | c :: rest =>
      if c.id = customerId then f c :: rest
      else c :: updateFirst rest customerId f

/-- The mutation the purchase route performs on the found customer:
`customer.points += awardedPoints`, `customer.lastPurchaseDate = now`,
then `applyStatusUpgrade(customer)`. -/
def recordPurchase (now : String) (amount : ℚ) (c : Customer) : Customer :=
  let awardedPoints := calcPointsWithStatus c.status amount
  applyStatusUpgrade now
    { c with points := c.points + awardedPoints, lastPurchaseDate := now }

/-- Outcome of `POST /api/customers/:id/purchase`, carrying the store as it
stands when the handler returns. -/
inductive PurchaseOutcome where
  | notFound (store : List Customer)
  | invalidAmount (store : List Customer)
  | ok (store : List Customer) (awardedPoints : ℤ)
  deriving DecidableEq, Repr

/-- The store as the handler leaves it. -/
def PurchaseOutcome.store : PurchaseOutcome → List Customer
  | .notFound s => s
  | .invalidAmount s => s
  | .ok s _ => s

/-- Whether the handler answered 400 Invalid amount. -/
def PurchaseOutcome.isInvalidAmount : PurchaseOutcome → Bool
  | .invalidAmount _ => true
  | _ => false

/-- Whether the handler rejected the request (404 or 400). -/
def PurchaseOutcome.isRejected : PurchaseOutcome → Bool
  | .notFound _ => true
  | .invalidAmount _ => true
  | .ok _ _ => false

/-- The `POST /api/customers/:id/purchase` handler: look the customer up
(404 if absent), validate the amount (400 if non-finite or ≤ 0), then award
points, stamp `lastPurchaseDate`, and apply the status upgrade. -/
def purchaseHandler (store : List Customer) (customerId : ℤ) (amount : JSNum)
    (now : String) : PurchaseOutcome :=
  match findCustomer store customerId with
  | none => .notFound store
  | some customer =>
      match amount with
      | .finite q =>
          if q ≤ 0 then .invalidAmount store
          else
            .ok (updateFirst store customerId (recordPurchase now q))
              (calcPointsWithStatus customer.status q)
      | _ => .invalidAmount store

/-- C1: For every valid tier T and every finite strictly positive amount A,
the Points Calculator returns floor(floor(A / 10) * multiplier(T)) — it
floors the base points first (1 point per 10 currency units), multiplies by
the tier multiplier (BRONZE 1.0, SILVER 1.0, GOLD 1.2, PLATINUM 2.0), and
floors again; in particular (BRONZE,100) ↦ 10, (SILVER,100) ↦ 10,
(GOLD,100) ↦ 12, (PLATINUM,100) ↦ 20, and (GOLD,9) ↦ 0. -/
theorem calcPointsWithStatus_matches_spec :
    (∀ (t : Tier) (A : ℚ), 0 < A →
      calcPointsWithStatus t A = calculatePoints_spec t A) ∧
    calcPointsWithStatus Tier.BRONZE 100 = 10 ∧
    calcPointsWithStatus Tier.SILVER 100 = 10 ∧
    calcPointsWithStatus Tier.GOLD 100 = 12 ∧
    calcPointsWithStatus Tier.PLATINUM 100 = 20 ∧
    calcPointsWithStatus Tier.GOLD 9 = 0 := by
  refine ⟨fun t A _ => ?_, ?_, ?_, ?_, ?_, ?_⟩
  · simp [calcPointsWithStatus, calculatePoints_spec, BASE_POINT_DIVISOR]
  all_goals norm_num [calcPointsWithStatus, STATUS_MULTIPLIER, BASE_POINT_DIVISOR]

/-- Witness for C1 at tier GOLD and amount 95: the double floor yields
⌊⌊95/10⌋ · 1.2⌋ = ⌊10.8⌋ = 10 (a single floor at the end would give 11). -/
theorem calcPointsWithStatus_matches_spec_witness :
    (0:ℚ) < 95 ∧
    calcPointsWithStatus Tier.GOLD 95 = calculatePoints_spec Tier.GOLD 95 :=
  ⟨by norm_num, calcPointsWithStatus_matches_spec.1 Tier.GOLD 95 (by norm_num)⟩

/-- C2: The Tier Promotion Evaluator applies exactly the ordered first-match
rules (≥ 1000 and not PLATINUM ⇒ PLATINUM; else ≥ 750 from SILVER/BRONZE ⇒
GOLD; else ≥ 500 from BRONZE ⇒ SILVER; else unchanged), and the status
changes exactly when a rule fires; in particular (BRONZE,499) stays BRONZE,
(BRONZE,500) ⇒ SILVER, (SILVER,750) ⇒ GOLD, (GOLD,1000) ⇒ PLATINUM, and
(GOLD,800) stays GOLD with nothing stamped. -/
theorem applyStatusUpgrade_matches_promotion_rules :
    (∀ (now : String) (c : Customer),
      (applyStatusUpgrade now c).status = (evaluatePromotion_spec c.status c.points).1 ∧
      ((applyStatusUpgrade now c).status ≠ c.status ↔
        (evaluatePromotion_spec c.status c.points).2 = true)) ∧
    applyStatusUpgrade "t" (mkLoyalty Tier.BRONZE 499) = mkLoyalty Tier.BRONZE 499 ∧
    applyStatusUpgrade "t" (mkLoyalty Tier.BRONZE 500) =
      { mkLoyalty Tier.BRONZE 500 with status := Tier.SILVER, lastStatusChange := some "t" } ∧
    applyStatusUpgrade "t" (mkLoyalty Tier.SILVER 750) =
      { mkLoyalty Tier.SILVER 750 with status := Tier.GOLD, lastStatusChange := some "t" } ∧
    applyStatusUpgrade "t" (mkLoyalty Tier.GOLD 1000) =
      { mkLoyalty Tier.GOLD 1000 with status := Tier.PLATINUM, lastStatusChange := some "t" } ∧
    applyStatusUpgrade "t" (mkLoyalty Tier.GOLD 800) = mkLoyalty Tier.GOLD 800 := by
  refine ⟨fun now c => ?_, by decide, by decide, by decide, by decide, by decide⟩
  obtain ⟨i, n, status, points, l, e, p, j, nt, ls⟩ := c
  cases status <;>
    simp [applyStatusUpgrade, evaluatePromotion_spec] <;>
    split_ifs <;> simp_all

/-- Witness for C2: the first-match rules evaluated at BRONZE with 0 points
leave the record unchanged. -/
theorem applyStatusUpgrade_matches_promotion_rules_witness :
    (applyStatusUpgrade "x" (mkLoyalty Tier.BRONZE 0)).status =
      (evaluatePromotion_spec Tier.BRONZE 0).1 :=
  (applyStatusUpgrade_matches_promotion_rules.1 "x" (mkLoyalty Tier.BRONZE 0)).1

/-- C3: The tier returned by the Tier Promotion Evaluator is never of lower
privilege than the input tier (no demotion), for every customer record. -/
theorem applyStatusUpgrade_no_demotion :
    ∀ (now : String) (c : Customer),
      c.status.rank ≤ (applyStatusUpgrade now c).status.rank := by
  intro now c
  obtain ⟨i, n, status, points, l, e, p, j, nt, ls⟩ := c
  cases status <;>
    simp [applyStatusUpgrade] <;>
    split_ifs <;> simp_all [Tier.rank]

/-- C4: The Tier Promotion Evaluator is idempotent: re-running it on the
result of a first run (same points, any later clock reading) changes
nothing at all — the first run's output record is a fixed point. -/
theorem applyStatusUpgrade_idempotent :
    ∀ (now₁ now₂ : String) (c : Customer),
      applyStatusUpgrade now₂ (applyStatusUpgrade now₁ c) = applyStatusUpgrade now₁ c := by
  intro now₁ now₂ c
  obtain ⟨i, n, status, points, l, e, p, j, nt, ls⟩ := c
  cases status <;>
    simp only [applyStatusUpgrade] <;>
    split_ifs <;> simp_all

/-- C5: For every tier and positive amounts A₁ ≤ A₂, the Points Calculator
returns a non-negative integer and is monotonically non-decreasing in the
amount. -/
theorem calcPointsWithStatus_nonneg_mono :
    ∀ (t : Tier) (A₁ A₂ : ℚ), 0 < A₁ → A₁ ≤ A₂ →
      0 ≤ calcPointsWithStatus t A₁ ∧
      calcPointsWithStatus t A₁ ≤ calcPointsWithStatus t A₂ := by
  intro t A₁ A₂ h1 h12
  have hm : (0:ℚ) ≤ STATUS_MULTIPLIER t := by
    cases t <;> norm_num [STATUS_MULTIPLIER]
  have hbase : (0:ℤ) ≤ ⌊A₁ / BASE_POINT_DIVISOR⌋ := by
    apply Int.floor_nonneg.mpr
    rw [BASE_POINT_DIVISOR]
    positivity
  have hbb : (⌊A₁ / BASE_POINT_DIVISOR⌋ : ℤ) ≤ ⌊A₂ / BASE_POINT_DIVISOR⌋ := by
    apply Int.floor_mono
    rw [BASE_POINT_DIVISOR]
    gcongr
  constructor
  · apply Int.floor_nonneg.mpr
    apply mul_nonneg _ hm
    exact_mod_cast hbase
  · apply Int.floor_mono
    apply mul_le_mul_of_nonneg_right _ hm
    exact_mod_cast hbb

/-- Witness for C5 at tier PLATINUM, amounts 7 ≤ 103. -/
theorem calcPointsWithStatus_nonneg_mono_witness :
    (0:ℚ) < 7 ∧ (7:ℚ) ≤ 103 ∧
    (0 ≤ calcPointsWithStatus Tier.PLATINUM 7 ∧
      calcPointsWithStatus Tier.PLATINUM 7 ≤ calcPointsWithStatus Tier.PLATINUM 103) :=
  ⟨by norm_num, by norm_num,
    calcPointsWithStatus_nonneg_mono Tier.PLATINUM 7 103 (by norm_num) (by norm_num)⟩

/-- C6: Once the customer is found, the purchase route answers 400 Invalid
amount exactly when the amount is non-finite, zero, or negative; in that
case it returns before any mutation, with the store untouched and no points
computed or awarded. -/
theorem purchaseHandler_invalidAmount_iff :
    ∀ (store : List Customer) (customerId : ℤ) (amount : JSNum)
      (now : String) (c : Customer), findCustomer store customerId = some c →
      (((purchaseHandler store customerId amount now).isInvalidAmount = true) ↔
        amount.isValidAmount = false) ∧
      (amount.isValidAmount = false →
        purchaseHandler store customerId amount now = .invalidAmount store) := by
  intro store customerId amount now c h
  cases amount <;>
    simp_all [purchaseHandler, JSNum.isValidAmount, PurchaseOutcome.isInvalidAmount] <;>
    split_ifs with hq <;>
    simp_all [PurchaseOutcome.isInvalidAmount, not_lt]

/-- Witness for C6: a one-customer store, the matching id, and the negative
amount −5 draw the 400 answer with the store intact. -/
theorem purchaseHandler_invalidAmount_iff_witness :
    findCustomer [mkLoyalty Tier.BRONZE 0] 0 = some (mkLoyalty Tier.BRONZE 0) ∧
    ((((purchaseHandler [mkLoyalty Tier.BRONZE 0] 0 (JSNum.finite (-5)) "ts").isInvalidAmount
        = true) ↔ (JSNum.finite (-5)).isValidAmount = false) ∧
      ((JSNum.finite (-5)).isValidAmount = false →
        purchaseHandler [mkLoyalty Tier.BRONZE 0] 0 (JSNum.finite (-5)) "ts" =
          .invalidAmount [mkLoyalty Tier.BRONZE 0])) :=
  ⟨by decide,
    purchaseHandler_invalidAmount_iff [mkLoyalty Tier.BRONZE 0] 0 (JSNum.finite (-5)) "ts"
      (mkLoyalty Tier.BRONZE 0) (by decide)⟩

/-- C7: On a runtime tier value outside the recognized set, the Points
Calculator degrades gracefully: the `?? 1.0` fallback makes it return
⌊amount / 10⌋ rather than fail. -/
theorem calcPointsWithStatusRuntime_fallback :
    ∀ (A : ℚ), calcPointsWithStatusRuntime none A = ⌊A / 10⌋ := by
  intro A
  simp [calcPointsWithStatusRuntime, BASE_POINT_DIVISOR]

/-- C8 counterexample: the Tier Promotion Evaluator is NOT clock-free — two
runs on the same (tier, points) input, differing only in the clock reading
the body takes via `new Date().toISOString()`, produce different results
(the promotion branch stamps `lastStatusChange` itself). -/
theorem applyStatusUpgrade_reads_clock :
    applyStatusUpgrade "2024-01-01T00:00:00.000Z" (mkLoyalty Tier.BRONZE 500) ≠
      applyStatusUpgrade "2024-06-01T00:00:00.000Z" (mkLoyalty Tier.BRONZE 500) := by
  decide

/-- C8 amended: the evaluator's tier decision is deterministic — it depends
only on (status, points) and not on the clock — but the evaluator is not
clock-free: whenever a promotion fires it stamps `lastStatusChange` with
the clock reading taken inside its own body, not one supplied by the
caller. -/
theorem applyStatusUpgrade_decision_deterministic :
    ∀ (now now' : String) (c₁ c₂ : Customer),
      c₁.status = c₂.status → c₁.points = c₂.points →
      (applyStatusUpgrade now c₁).status = (applyStatusUpgrade now c₂).status ∧
      (applyStatusUpgrade now c₁).status = (applyStatusUpgrade now' c₁).status ∧
      ((applyStatusUpgrade now c₁).status ≠ c₁.status →
        (applyStatusUpgrade now c₁).lastStatusChange = some now) := by
  intro now now' c₁ c₂ hs hp
  obtain ⟨i, n, status, points, l, e, p, j, nt, ls⟩ := c₁
  obtain ⟨i', n', status', points', l', e', p', j', nt', ls'⟩ := c₂
  simp_all
  subst hs hp
  cases status <;>
    simp [applyStatusUpgrade] <;>
    split_ifs <;> simp_all

/-- Witness for the amended C8 at SILVER with 1000 points: two records
agreeing on (status, points), and two clock readings. -/
theorem applyStatusUpgrade_decision_deterministic_witness :
    (applyStatusUpgrade "a" (mkLoyalty Tier.SILVER 1000)).status =
      (applyStatusUpgrade "a" { mkLoyalty Tier.SILVER 1000 with name := "x" }).status ∧
    (applyStatusUpgrade "a" (mkLoyalty Tier.SILVER 1000)).status =
      (applyStatusUpgrade "b" (mkLoyalty Tier.SILVER 1000)).status ∧
    (applyStatusUpgrade "a" (mkLoyalty Tier.SILVER 1000)).lastStatusChange = some "a" := by
  have h := applyStatusUpgrade_decision_deterministic "a" "b" (mkLoyalty Tier.SILVER 1000)
    { mkLoyalty Tier.SILVER 1000 with name := "x" } rfl rfl
  exact ⟨h.1, h.2.1, h.2.2 (by decide)⟩

/-- C9: The purchase route rejects exactly when the id matches no stored
customer (404) or the amount is invalid (400), and on every rejection it
returns before any mutation: the store it leaves behind is the one it was
given, every customer record intact. -/
theorem purchaseHandler_reject_atomic :
    ∀ (store : List Customer) (customerId : ℤ) (amount : JSNum) (now : String),
      ((purchaseHandler store customerId amount now).isRejected = true ↔
        (findCustomer store customerId = none ∨ amount.isValidAmount = false)) ∧
      ((purchaseHandler store customerId amount now).isRejected = true →
        (purchaseHandler store customerId amount now).store = store) := by
  intro store customerId amount now
  cases h : findCustomer store customerId <;> cases amount <;>
    simp_all [purchaseHandler, JSNum.isValidAmount, PurchaseOutcome.isRejected,
      PurchaseOutcome.store] <;>
    split_ifs with hq <;>
    simp_all [PurchaseOutcome.isRejected, PurchaseOutcome.store, not_lt]

/-- Witness for C9: a purchase for the absent id 7 against a one-customer
store is rejected and leaves the store as it was. -/
theorem purchaseHandler_reject_atomic_witness :
    (purchaseHandler [mkLoyalty Tier.GOLD 850] 7 (JSNum.finite 30) "ts").isRejected = true ∧
    (purchaseHandler [mkLoyalty Tier.GOLD 850] 7 (JSNum.finite 30) "ts").store =
      [mkLoyalty Tier.GOLD 850] :=
  ⟨by decide,
    (purchaseHandler_reject_atomic [mkLoyalty Tier.GOLD 850] 7 (JSNum.finite 30) "ts").2
      (by decide)⟩

/-- C10: The Tier Promotion Evaluator writes at most the `status` and
`lastStatusChange` fields — id, name, points, lastPurchaseDate, email,
preferredStore, joinDate and notifications always keep their values — and
it touches `lastStatusChange` exactly when the status changes: every
promotion branch stamps it, and when no rule fires the whole record is
returned unchanged. -/
theorem applyStatusUpgrade_frame :
    ∀ (now : String) (c : Customer),
      (applyStatusUpgrade now c).id = c.id ∧
      (applyStatusUpgrade now c).name = c.name ∧
      (applyStatusUpgrade now c).points = c.points ∧
      (applyStatusUpgrade now c).lastPurchaseDate = c.lastPurchaseDate ∧
      (applyStatusUpgrade now c).email = c.email ∧
      (applyStatusUpgrade now c).preferredStore = c.preferredStore ∧
      (applyStatusUpgrade now c).joinDate = c.joinDate ∧
      (applyStatusUpgrade now c).notifications = c.notifications ∧
      ((applyStatusUpgrade now c).status ≠ c.status →
        (applyStatusUpgrade now c).lastStatusChange = some now) ∧
      ((applyStatusUpgrade now c).status = c.status → applyStatusUpgrade now c = c) := by
  intro now c
  obtain ⟨i, n, status, points, l, e, p, j, nt, ls⟩ := c
  cases status <;>
    simp [applyStatusUpgrade] <;>
    split_ifs <;> simp_all

/-- Witness for C10 at BRONZE with 800 points (promoted to GOLD): points
survive and the promotion stamps the given timestamp. -/
theorem applyStatusUpgrade_frame_witness :
    (applyStatusUpgrade "ts" (mkLoyalty Tier.BRONZE 800)).status ≠
      (mkLoyalty Tier.BRONZE 800).status ∧
    (applyStatusUpgrade "ts" (mkLoyalty Tier.BRONZE 800)).points =
      (mkLoyalty Tier.BRONZE 800).points ∧
    (applyStatusUpgrade "ts" (mkLoyalty Tier.BRONZE 800)).lastStatusChange = some "ts" :=
  ⟨by decide,
    (applyStatusUpgrade_frame "ts" (mkLoyalty Tier.BRONZE 800)).2.2.1,
    (applyStatusUpgrade_frame "ts" (mkLoyalty Tier.BRONZE 800)).2.2.2.2.2.2.2.2.1
      (by decide)⟩
